import Mathlib

/-!
Shallow embedding of the EVE-Tools/static-data service: the location
resolution and caching engine (lib/locations/locations.go) and the
market-type classifier cache (lib/types/types.go).

Modelling conventions:
* The BoltDB bucket "locations" is an oracle `Cache : Int -> Option CachedLocation`;
  entries are held structured (JSON marshalling is identity in the model).
* Every upstream HTTP endpoint (ESI, the third-party structure feed) is an
  oracle returning `Option` of the record actually used by the code; `none`
  stands for a failed call (network error, bad status, malformed body).
* Functions return, besides the value the Go code returns, the number of
  upstream calls they performed and the list of cache writes they issued,
  so that claims about "no network call" and "no cache write" are statable.
* float64 payloads (coordinates, security status) are carried opaquely as
  `Int`; the code never computes with them, it only copies them.
* protobuf pointer fields become `Option`; the Go comparison of a struct
  against its zero value becomes comparison against the default record.
-/

namespace StaticData

structure Coordinates where
  x : Int
  y : Int
  z : Int
deriving DecidableEq

structure Region where
  id : Int
  name : String
deriving DecidableEq

structure Constellation where
  id : Int
  name : String
deriving DecidableEq

structure SolarSystem where
  id : Int
  name : String
  securityStatus : Int
deriving DecidableEq

structure Station where
  id : Int
  name : String
  typeId : Int
  typeName : String
  lastSeen : Option Int
  public : Bool
  firstSeen : Option Int
  coordinates : Option Coordinates
deriving DecidableEq

/-- pb.Location: four optional facets, each present only when resolved. -/
structure Location where
  region : Option Region := none
  constellation : Option Constellation := none
  solarSystem : Option SolarSystem := none
  station : Option Station := none
deriving DecidableEq

/-- CachedLocation from lib/locations/types.go: id, unix expiry, location. -/
structure CachedLocation where
  id : Int := 0
  expiresAt : Int := 0
  location : Location := {}
deriving DecidableEq

/-- The "locations" bucket of the BoltDB store, keyed by identifier. -/
abbrev Cache := Int → Option CachedLocation

/-- Record returned by GetUniverseStationsStationId, restricted to the fields read. -/
structure ESIStation where
  stationId : Int
  name : String
  typeId : Int
  systemId : Int
  position : Coordinates
deriving DecidableEq

/-- Record returned by GetUniverseSystemsSystemId, restricted to the fields read. -/
structure ESISystem where
  systemId : Int
  name : String
  securityStatus : Int
  constellationId : Int
deriving DecidableEq

/-- Record returned by GetUniverseConstellationsConstellationId, fields read. -/
structure ESIConstellation where
  constellationId : Int
  name : String
  regionId : Int
deriving DecidableEq

/-- Record returned by GetUniverseRegionsRegionId, restricted to the fields read. -/
structure ESIRegion where
  regionId : Int
  name : String
deriving DecidableEq

/-- The upstream ESI endpoints used by the resolver. `names` is the category
string returned by PostUniverseNames for an id; `none` covers a failed call,
a non-200 status, or an empty name list, all of which error out before the
category switch. -/
structure ESI where
  names : Int → Option String
  station : Int → Option ESIStation
  system : Int → Option ESISystem
  constellation : Int → Option ESIConstellation
  region : Int → Option ESIRegion

/-- Record from the third-party bulk structure feed (type Structure in
lib/locations/types.go); timestamps are carried opaquely as Int. -/
structure Structure where
  typeId : Int
  name : String
  regionId : Int
  coordinates : Coordinates
  typeName : String
  systemId : Int
  lastSeen : Int
  systemName : String
  public : Bool
  firstSeen : Int
  regionName : String
deriving DecidableEq

deriving instance DecidableEq for Except

/-- Result of a per-level fetch: the location (or error) plus the number of
upstream calls performed. The per-level fetchers never write to the cache. -/
structure FetchRes where
  result : Except String Location
  calls : Nat
deriving DecidableEq

/-- Result of a resolution step: value or error, upstream calls, cache writes. -/
structure UpdateRes where
  result : Except String CachedLocation
  calls : Nat
  writes : List CachedLocation
deriving DecidableEq

/-- fetchLocationFromCache (locations.go): read the cache; the returned Bool is
needsUpdate. An entry needs an update only when its id lies strictly between
20000000 and 1000000000000 and its expiry has passed; a missing key yields the
zero value and needsUpdate = true. -/
def fetchLocationFromCache (cache : Cache) (now : Int) (id : Int) :
    CachedLocation × Bool :=
  match cache id with
  | none => ({}, true)
  | some cachedLocation =>
    if 20000000 < cachedLocation.id ∧ cachedLocation.id < 1000000000000 ∧
        cachedLocation.expiresAt < now then
      (cachedLocation, true)
    else
      (cachedLocation, false)

/-- fetchRegion (locations.go): cache-or-fetch a region. -/
def fetchRegion (cache : Cache) (now : Int) (esi : ESI) (id : Int) : FetchRes :=
  match fetchLocationFromCache cache now id with
  | (cachedRegion, false) => ⟨.ok cachedRegion.location, 0⟩
  | (_, true) =>
    match esi.region id with
    | none => ⟨.error "could not get region from ESI", 1⟩
    | some region =>
      ⟨.ok { region := some { id := region.regionId, name := region.name } }, 1⟩

/-- fetchConstellation (locations.go): cache-or-fetch a constellation, resolving
its region first and splicing the constellation onto the region location. -/
def fetchConstellation (cache : Cache) (now : Int) (esi : ESI) (id : Int) : FetchRes :=
  match fetchLocationFromCache cache now id with
  | (cachedConstellation, false) => ⟨.ok cachedConstellation.location, 0⟩
  | (_, true) =>
    match esi.constellation id with
    | none => ⟨.error "could not get constellation from ESI", 1⟩
    | some constellation =>
      let r := fetchRegion cache now esi constellation.regionId
      match r.result with
      | .error e => ⟨.error e, 1 + r.calls⟩
      | .ok regionLocation =>
        let facet : Constellation :=
          { id := constellation.constellationId, name := constellation.name }
        ⟨.ok { regionLocation with constellation := some facet }, 1 + r.calls⟩

/-- fetchSolarSystem (locations.go): cache-or-fetch a solar system, resolving
its constellation first and splicing the system onto that location. -/
def fetchSolarSystem (cache : Cache) (now : Int) (esi : ESI) (id : Int) : FetchRes :=
  match fetchLocationFromCache cache now id with
  | (cachedSolarSystem, false) => ⟨.ok cachedSolarSystem.location, 0⟩
  | (_, true) =>
    match esi.system id with
    | none => ⟨.error "could not get solar system from ESI", 1⟩
    | some solarSystem =>
      let r := fetchConstellation cache now esi solarSystem.constellationId
      match r.result with
      | .error e => ⟨.error e, 1 + r.calls⟩
      | .ok constellationLocation =>
        let facet : SolarSystem :=
          { id := solarSystem.systemId, name := solarSystem.name,
            securityStatus := solarSystem.securityStatus }
        ⟨.ok { constellationLocation with solarSystem := some facet }, 1 + r.calls⟩

/-- fetchStation (locations.go): cache-or-fetch a station, resolving its solar
system first; the spliced station record sets Public to true unconditionally
and leaves the structure-only fields at their zero values. -/
def fetchStation (cache : Cache) (now : Int) (esi : ESI) (id : Int) : FetchRes :=
  match fetchLocationFromCache cache now id with
  | (cachedStation, false) => ⟨.ok cachedStation.location, 0⟩
  | (_, true) =>
    match esi.station id with
    | none => ⟨.error "could not get station from ESI", 1⟩
    | some station =>
      let r := fetchSolarSystem cache now esi station.systemId
      match r.result with
      | .error e => ⟨.error e, 1 + r.calls⟩
      | .ok solarSystemLocation =>
        let facet : Station :=
          { id := station.stationId, name := station.name,
            typeId := station.typeId, typeName := "", lastSeen := none,
            public := true, firstSeen := none,
            coordinates := some station.position }
        ⟨.ok { solarSystemLocation with station := some facet }, 1 + r.calls⟩

/-- fetchLocationFromESI (locations.go): one PostUniverseNames call to classify
the id, then dispatch on the category string. -/
def fetchLocationFromESI (cache : Cache) (now : Int) (esi : ESI) (id : Int) : FetchRes :=
  match esi.names id with
  | none =>
    ⟨.error ("could not get location type of ID " ++ toString id ++ " from ESI"), 1⟩
  | some category =>
    let r : FetchRes :=
      if category = "station" then fetchStation cache now esi id
      else if category = "solar_system" then fetchSolarSystem cache now esi id
      else if category = "constellation" then fetchConstellation cache now esi id
      else if category = "region" then fetchRegion cache now esi id
      else ⟨.error ("Unhandled category " ++ category), 0⟩
    ⟨r.result, 1 + r.calls⟩

/-- updateLocationInCache (locations.go): reject unknown citadels (above 1e12)
and implausible ranges, fetch from ESI, stamp the TTL (one hour above
61000000, one day otherwise) and write the entry to the cache. -/
def updateLocationInCache (cache : Cache) (now : Int) (esi : ESI) (id : Int) : UpdateRes :=
  if 1000000000000 < id then
    ⟨.error ("Could not find citadel " ++ toString id ++ " in current dataset"), 0, []⟩
  else if id < 10000000 ∨ 64000000 < id ∨ (40000000 ≤ id ∧ id < 60000000) then
    ⟨.error "not a valid location ID range", 0, []⟩
  else
    let r := fetchLocationFromESI cache now esi id
    match r.result with
    | .error e => ⟨.error e, r.calls, []⟩
    | .ok rawLocation =>
      let expireAt : Int := if 61000000 < id then now + 3600 else now + 86400
      let cachedLocation : CachedLocation :=
        { id := id, expiresAt := expireAt, location := rawLocation }
      ⟨.ok cachedLocation, r.calls, [cachedLocation]⟩

/-- getCachedLocation (locations.go): cache read; on needsUpdate the variable
holding the cached value is reassigned to the result of updateLocationInCache
before the error check, exactly as in the Go source; finally the zero value is
rejected. -/
def getCachedLocation (cache : Cache) (now : Int) (esi : ESI) (id : Int) : UpdateRes :=
  match fetchLocationFromCache cache now id with
  | (location, false) =>
    if location = ({} : CachedLocation) then
      ⟨.error ("could not get a valid location " ++ toString id ++ " from cache and backend"),
        0, []⟩
    else ⟨.ok location, 0, []⟩
  | (_, true) =>
    let u := updateLocationInCache cache now esi id
    match u.result with
    | .error e => ⟨.error e, u.calls, u.writes⟩
    | .ok location =>
      if location = ({} : CachedLocation) then
        ⟨.error ("could not get a valid location " ++ toString id ++ " from cache and backend"),
          u.calls, u.writes⟩
      else ⟨.ok location, u.calls, u.writes⟩

/-- getLocation (locations.go): project the resolved entry to its Location. -/
def getLocation (cache : Cache) (now : Int) (esi : ESI) (id : Int) :
    Except String Location :=
  match (getCachedLocation cache now esi id).result with
  | .error e => .error e
  | .ok cachedLocation => .ok cachedLocation.location

/-- deduplicateIDs (locations.go): the Go code inserts every id into a map used
as a set and emits its keys; the model keeps one occurrence of each id (the
claims treat the order as irrelevant). -/
def deduplicateIDs (ids : List Int) : List Int :=
  ids.foldr (fun id acc => if id ∈ acc then acc else id :: acc) []

/-- Aggregate state of getLocations: the response mapping (keyed by the ID
field of each resolved entry, as the Go code does) and the failed flag. -/
structure BatchRes where
  response : List (Int × Location)
  failed : Bool
deriving DecidableEq

/-- One fan-in step of getLocations: a success is appended to the response
keyed by the entry ID; a failure is logged and sets the failed flag. -/
def getLocationsStep (cache : Cache) (now : Int) (esi : ESI)
    (acc : BatchRes) (id : Int) : BatchRes :=
  match (getCachedLocation cache now esi id).result with
  | .ok c => { acc with response := acc.response ++ [(c.id, c.location)] }
  | .error _ => { acc with failed := true }

/-- getLocations (locations.go): deduplicate, spawn one task per unique id,
collect successes into the response and record whether any task failed. All
tasks read the same store snapshot; the response is keyed by id, so the
completion order does not matter. -/
def getLocations (cache : Cache) (now : Int) (esi : ESI) (ids : List Int) : BatchRes :=
  (deduplicateIDs ids).foldl (getLocationsStep cache now esi) ⟨[], false⟩

/-- The pair getLocations actually returns: the partial response plus an
aggregate error that is non-nil exactly when some task failed. -/
def getLocationsResult (cache : Cache) (now : Int) (esi : ESI) (ids : List Int) :
    List (Int × Location) × Option String :=
  let r := getLocations cache now esi ids
  (r.response, if r.failed then some "could not fetch all locations" else none)

/-- GetLocations (locations.go, gRPC handler): calls getLocations and discards
its aggregate error, returning the partial response with a nil error. -/
def GetLocations (cache : Cache) (now : Int) (esi : ESI) (ids : List Int) :
    List (Int × Location) × Option String :=
  ((getLocations cache now esi ids).response, none)

/-- HTTP status mapping of GetLocationsEndpoint (older endpoint.go): 207 when
getLocations reported an aggregate error, 200 otherwise. -/
def endpointResponseCode (cacheErr : Option String) : Nat :=
  match cacheErr with
  | none => 200
  | some _ => 207

/-- storeStructure (locations.go): resolve the solar system of the structure,
then build the cache entry splicing the structure-specific station fields onto
the resolved ancestor chain; returns the entry written, or none when a step
failed and the write was skipped. Key parsing and protobuf timestamp
conversion are elided (their failure paths also skip the write). -/
def storeStructure (cache : Cache) (now : Int) (esi : ESI) (id : Int)
    (struc : Structure) (expireAt : Int) : Option CachedLocation :=
  match getLocation cache now esi struc.systemId with
  | .error _ => none
  | .ok system =>
    let stationFacet : Station :=
      { id := id, name := struc.name, typeId := struc.typeId,
        typeName := struc.typeName, lastSeen := some struc.lastSeen,
        public := struc.public, firstSeen := some struc.firstSeen,
        coordinates := some struc.coordinates }
    let loc : Location :=
      { region := system.region, constellation := system.constellation,
        solarSystem := system.solarSystem, station := some stationFacet }
    some { id := id, expiresAt := expireAt, location := loc }

/-- Record returned by GetUniverseTypesTypeId (lib/types/types.go), restricted
to the fields read by the market-type classifier. -/
structure TypeInfo where
  published : Bool
  marketGroupId : Int
deriving DecidableEq

/-- checkIfMarketType (types.go): one detail call; a type is a market type when
it is published and has a non-zero market group. The argument is the outcome
of the upstream call this attempt observes. -/
def checkIfMarketType (fetched : Option TypeInfo) : Except String Bool :=
  match fetched with
  | none => .error "error loading type info"
  | some typeInfo => .ok (typeInfo.published && typeInfo.marketGroupId != 0)

/-- The retry loop inside checkIfMarketTypeAsyncRetry (types.go): fetchType
gives the upstream outcome of each successive attempt; retries counts down on
error and is zeroed on success, which ends the loop with that result. -/
def checkLoop (fetchType : Nat → Option TypeInfo) :
    Nat → Nat → Except String Bool → Except String Bool
  | _, 0, last => last
  | attempt, retries + 1, _ =>
    match checkIfMarketType (fetchType attempt) with
    | .ok isMarketType => .ok isMarketType
    | .error e => checkLoop fetchType (attempt + 1) retries (.error e)

/-- Channel a type id ends up on after checkIfMarketTypeAsyncRetry. -/
inductive TypeOutcome where
  | market
  | nonMarket
  | failed
deriving DecidableEq

/-- checkIfMarketTypeAsyncRetry (types.go): up to 3 attempts; a surviving error
goes to the failure channel, otherwise the id goes to the market or non-market
channel according to the classification. -/
def checkIfMarketTypeAsyncRetry (fetchType : Nat → Option TypeInfo) : TypeOutcome :=
  match checkLoop fetchType 0 3 (.ok false) with
  | .error _ => .failed
  | .ok true => .market
  | .ok false => .nonMarket

/-- getMarketTypes (types.go): classify every type id and collect those that
landed on the market channel; failures are only logged and contribute nothing.
fetchType gives, per type id, the upstream outcome of each retry attempt. -/
def getMarketTypes (typeIDs : List Int) (fetchType : Int → Nat → Option TypeInfo) :
    List Int :=
  typeIDs.foldl (fun acc id =>
    match checkIfMarketTypeAsyncRetry (fetchType id) with
    | .market => acc ++ [id]
    | _ => acc) []

/-! Identifier bands of the EVE id space, used to state invariants about the
contents of the cache and the upstream data. Regions and structures are the
bulk-refreshed bands; constellations, solar systems and stations are refreshed
individually. -/

def regionBand (i : Int) : Prop := 10000000 ≤ i ∧ i ≤ 20000000

def constellationBand (i : Int) : Prop := 20000000 < i ∧ i < 30000000

def solarSystemBand (i : Int) : Prop := 30000000 ≤ i ∧ i < 40000000

def stationBand (i : Int) : Prop := 60000000 ≤ i ∧ i ≤ 64000000

def structureBand (i : Int) : Prop := 1000000000000 < i

instance (i : Int) : Decidable (regionBand i) :=
  inferInstanceAs (Decidable (10000000 ≤ i ∧ i ≤ 20000000))

instance (i : Int) : Decidable (constellationBand i) :=
  inferInstanceAs (Decidable (20000000 < i ∧ i < 30000000))

instance (i : Int) : Decidable (solarSystemBand i) :=
  inferInstanceAs (Decidable (30000000 ≤ i ∧ i < 40000000))

instance (i : Int) : Decidable (stationBand i) :=
  inferInstanceAs (Decidable (60000000 ≤ i ∧ i ≤ 64000000))

instance (i : Int) : Decidable (structureBand i) :=
  inferInstanceAs (Decidable (1000000000000 < i))

/-- The full ancestor chain of facets below the station level is present. -/
def hasAncestorChain (l : Location) : Prop :=
  l.solarSystem.isSome = true ∧ l.constellation.isSome = true ∧ l.region.isSome = true

instance (l : Location) : Decidable (hasAncestorChain l) :=
  inferInstanceAs (Decidable (l.solarSystem.isSome = true ∧
    l.constellation.isSome = true ∧ l.region.isSome = true))

/-- Cache invariant: an entry stored under a key carries the facets appropriate
to the band of that key. This is what the code itself writes at each band. -/
def cacheWellFormed (cache : Cache) : Prop :=
  ∀ i c, cache i = some c →
    (regionBand i → c.location.region.isSome = true) ∧
    (constellationBand i →
      c.location.constellation.isSome = true ∧ c.location.region.isSome = true) ∧
    (solarSystemBand i → hasAncestorChain c.location) ∧
    (stationBand i → hasAncestorChain c.location) ∧
    (structureBand i → hasAncestorChain c.location)

/-- Upstream consistency: ESI classifies ids into their own band and reports
parent ids that lie in the parent band. -/
def esiWellFormed (esi : ESI) : Prop :=
  (∀ i cat, esi.names i = some cat →
    (cat = "station" → stationBand i) ∧
    (cat = "solar_system" → solarSystemBand i) ∧
    (cat = "constellation" → constellationBand i) ∧
    (cat = "region" → regionBand i)) ∧
  (∀ i st, esi.station i = some st → solarSystemBand st.systemId) ∧
  (∀ i s, esi.system i = some s → constellationBand s.constellationId) ∧
  (∀ i cc, esi.constellation i = some cc → regionBand cc.regionId)

/-! Concrete worlds used to exercise the theorems on explicit inputs. -/

/-- An empty cache. -/
def witCache : Cache := fun _ => none

/-- An upstream where every endpoint fails. -/
def failingESI : ESI :=
  { names := fun _ => none, station := fun _ => none, system := fun _ => none,
    constellation := fun _ => none, region := fun _ => none }

def stInfo : ESIStation :=
  { stationId := 60000004, name := "Jita Station", typeId := 1529,
    systemId := 30000142, position := { x := 1, y := 2, z := 3 } }

def sysInfo : ESISystem :=
  { systemId := 30000142, name := "Jita", securityStatus := 9,
    constellationId := 20000020 }

def constInfo : ESIConstellation :=
  { constellationId := 20000020, name := "Kimotoro", regionId := 10000002 }

def regInfo : ESIRegion := { regionId := 10000002, name := "The Forge" }

/-- A healthy upstream serving one consistent chain of records. -/
def witESI : ESI :=
  { names := fun i => if solarSystemBand i then some "solar_system" else none,
    station := fun _ => some stInfo,
    system := fun _ => some sysInfo,
    constellation := fun _ => some constInfo,
    region := fun _ => some regInfo }

def theForgeRegion : Region := { id := 10000002, name := "The Forge" }

def kimotoroConstellation : Constellation := { id := 20000020, name := "Kimotoro" }

def jitaSystem : SolarSystem := { id := 30000142, name := "Jita", securityStatus := 9 }

/-- The location the healthy upstream resolves for the Jita solar system. -/
def jitaSystemLocation : Location :=
  { region := some theForgeRegion, constellation := some kimotoroConstellation,
    solarSystem := some jitaSystem, station := none }

/-- A cached entry for Jita whose expiry has passed. -/
def staleEntry : CachedLocation :=
  { id := 30000142, expiresAt := 0, location := jitaSystemLocation }

/-- A cache holding only the stale Jita entry. -/
def staleCache : Cache := fun i => if i = 30000142 then some staleEntry else none

/-- A region entry whose expiry has passed (regions are bulk refreshed). -/
def theForgeEntry : CachedLocation :=
  { id := 10000002, expiresAt := 0,
    location := { region := some theForgeRegion } }

/-- A cache holding only the expired region entry. -/
def regionCache : Cache := fun i => if i = 10000002 then some theForgeEntry else none

/-- Entry written by updateLocationInCache for Jita at time 0. -/
def witSystemEntry : CachedLocation :=
  { id := 30000142, expiresAt := 86400, location := jitaSystemLocation }

/-- The station facet fetchStation builds for station 60000004. -/
def witStationFacet : Station :=
  { id := 60000004, name := "Jita Station", typeId := 1529, typeName := "",
    lastSeen := none, public := true, firstSeen := none,
    coordinates := some { x := 1, y := 2, z := 3 } }

/-- Location resolved by fetchStation for station 60000004 on the empty cache. -/
def witStationLocation : Location :=
  { region := some theForgeRegion, constellation := some kimotoroConstellation,
    solarSystem := some jitaSystem, station := some witStationFacet }

/-- A structure record from the bulk feed, placed in the Jita system. -/
def witStructure : Structure :=
  { typeId := 35832, name := "Keepstar", regionId := 10000002,
    coordinates := { x := 4, y := 5, z := 6 }, typeName := "Keepstar",
    systemId := 30000142, lastSeen := 7, systemName := "Jita", public := false,
    firstSeen := 8, regionName := "The Forge" }

/-- The station facet storeStructure builds for the structure above. -/
def witStoreStationFacet : Station :=
  { id := 1000000000005, name := "Keepstar", typeId := 35832,
    typeName := "Keepstar", lastSeen := some 7, public := false,
    firstSeen := some 8, coordinates := some { x := 4, y := 5, z := 6 } }

/-- Location assembled by storeStructure for the structure above. -/
def witStoreLocation : Location :=
  { region := some theForgeRegion, constellation := some kimotoroConstellation,
    solarSystem := some jitaSystem, station := some witStoreStationFacet }

/-- Entry written by storeStructure for the structure above. -/
def witStoreEntry : CachedLocation :=
  { id := 1000000000005, expiresAt := 86400, location := witStoreLocation }

/-- The response contribution of one id, as getLocations records it. -/
def resolvedPair (cache : Cache) (now : Int) (esi : ESI) (i : Int) :
    Option (Int × Location) :=
  match (getCachedLocation cache now esi i).result with
  | .ok c => some (c.id, c.location)
  | .error _ => none

/-- Whether resolving one id fails. -/
def resolutionFailed (cache : Cache) (now : Int) (esi : ESI) (i : Int) : Bool :=
  match (getCachedLocation cache now esi i).result with
  | .ok _ => false
  | .error _ => true

/-- Upstream attempt trace failing twice, then returning a market type. -/
def ftTwoFailures : Nat → Option TypeInfo := fun attempt =>
  if attempt < 2 then none else some { published := true, marketGroupId := 5 }

/-- Upstream attempt trace that always fails. -/
def ftAllFailures : Nat → Option TypeInfo := fun _ => none

/-- Per-type attempt traces: type 7 recovers on the third try, the rest fail. -/
def witFetchType : Int → Nat → Option TypeInfo := fun id =>
  if id = 7 then ftTwoFailures else ftAllFailures

theorem fetchLocationFromCache_cached (cache : Cache) (now i : Int)
    (c : CachedLocation) (h : fetchLocationFromCache cache now i = (c, false)) :
    cache i = some c := by
  unfold fetchLocationFromCache at h
  split at h
  next heq => simp at h
  next cl heq =>
    split at h
    · simp at h
    · simp only [Prod.mk.injEq] at h
      rw [heq, h.1]

theorem fetchRegion_region_isSome (cache : Cache) (now : Int) (esi : ESI)
    (hc : cacheWellFormed cache) (i : Int) (hi : regionBand i)
    (l : Location) (h : (fetchRegion cache now esi i).result = .ok l) :
    l.region.isSome = true := by
  unfold fetchRegion at h
  split at h
  next c heq =>
    simp only [Except.ok.injEq] at h
    have hcc := fetchLocationFromCache_cached cache now i c heq
    rw [← h]
    exact ((hc i c hcc).1 hi)
  next _ heq =>
    cases hr : esi.region i with
    | none => rw [hr] at h; simp at h
    | some reg =>
      rw [hr] at h
      simp only [Except.ok.injEq] at h
      rw [← h]
      rfl

theorem fetchConstellation_facets (cache : Cache) (now : Int) (esi : ESI)
    (hc : cacheWellFormed cache) (he : esiWellFormed esi) (i : Int)
    (hi : constellationBand i) (l : Location)
    (h : (fetchConstellation cache now esi i).result = .ok l) :
    l.constellation.isSome = true ∧ l.region.isSome = true := by
  unfold fetchConstellation at h
  split at h
  next c heq =>
    simp only [Except.ok.injEq] at h
    have hcc := fetchLocationFromCache_cached cache now i c heq
    rw [← h]
    exact ((hc i c hcc).2.1 hi)
  next _ heq =>
    cases hr : esi.constellation i with
    | none => rw [hr] at h; simp at h
    | some cc =>
      rw [hr] at h
      cases hfr : (fetchRegion cache now esi cc.regionId).result with
      | error e => simp [hfr] at h
      | ok regionLocation =>
        simp only [hfr, Except.ok.injEq] at h
        have hreg := fetchRegion_region_isSome cache now esi hc cc.regionId
          (he.2.2.2 i cc hr) regionLocation hfr
        rw [← h]
        exact ⟨rfl, hreg⟩

theorem fetchSolarSystem_chain (cache : Cache) (now : Int) (esi : ESI)
    (hc : cacheWellFormed cache) (he : esiWellFormed esi) (i : Int)
    (hi : solarSystemBand i) (l : Location)
    (h : (fetchSolarSystem cache now esi i).result = .ok l) :
    hasAncestorChain l := by
  unfold fetchSolarSystem at h
  split at h
  next c heq =>
    simp only [Except.ok.injEq] at h
    have hcc := fetchLocationFromCache_cached cache now i c heq
    rw [← h]
    exact ((hc i c hcc).2.2.1 hi)
  next _ heq =>
    cases hs : esi.system i with
    | none => rw [hs] at h; simp at h
    | some solarSystem =>
      rw [hs] at h
      cases hfc : (fetchConstellation cache now esi solarSystem.constellationId).result with
      | error e => simp [hfc] at h
      | ok constellationLocation =>
        simp only [hfc, Except.ok.injEq] at h
        have hfacets := fetchConstellation_facets cache now esi hc he
          solarSystem.constellationId (he.2.2.1 i solarSystem hs)
          constellationLocation hfc
        rw [← h]
        exact ⟨rfl, hfacets.1, hfacets.2⟩

theorem fetchStation_chain (cache : Cache) (now : Int) (esi : ESI)
    (hc : cacheWellFormed cache) (he : esiWellFormed esi) (i : Int)
    (hi : stationBand i) (l : Location)
    (h : (fetchStation cache now esi i).result = .ok l) :
    hasAncestorChain l := by
  unfold fetchStation at h
  split at h
  next c heq =>
    simp only [Except.ok.injEq] at h
    have hcc := fetchLocationFromCache_cached cache now i c heq
    rw [← h]
    exact ((hc i c hcc).2.2.2.1 hi)
  next _ heq =>
    cases hs : esi.station i with
    | none => rw [hs] at h; simp at h
    | some station =>
      rw [hs] at h
      cases hfs : (fetchSolarSystem cache now esi station.systemId).result with
      | error e => simp [hfs] at h
      | ok solarSystemLocation =>
        simp only [hfs, Except.ok.injEq] at h
        have hchain := fetchSolarSystem_chain cache now esi hc he
          station.systemId (he.2.1 i station hs) solarSystemLocation hfs
        rw [← h]
        exact ⟨hchain.1, hchain.2.1, hchain.2.2⟩

theorem fetchLocationFromESI_solarSystem_chain (cache : Cache) (now : Int)
    (esi : ESI) (hc : cacheWellFormed cache) (he : esiWellFormed esi) (i : Int)
    (hi : solarSystemBand i) (l : Location)
    (h : (fetchLocationFromESI cache now esi i).result = .ok l) :
    hasAncestorChain l := by
  have hiv : 30000000 ≤ i ∧ i < 40000000 := hi
  unfold fetchLocationFromESI at h
  split at h
  next heq => simp at h
  next cat heq =>
    have hcat := he.1 i cat heq
    split at h
    next h1 =>
      have hb : 60000000 ≤ i ∧ i ≤ 64000000 := hcat.1 h1
      omega
    next h1 =>
      split at h
      next h2 => exact fetchSolarSystem_chain cache now esi hc he i hi l h
      next h2 =>
        split at h
        next h3 =>
          have hb : 20000000 < i ∧ i < 30000000 := hcat.2.2.1 h3
          omega
        next h3 =>
          split at h
          next h4 =>
            have hb : 10000000 ≤ i ∧ i ≤ 20000000 := hcat.2.2.2 h4
            omega
          next h4 => simp at h

theorem updateLocationInCache_solarSystem_chain (cache : Cache) (now : Int)
    (esi : ESI) (hc : cacheWellFormed cache) (he : esiWellFormed esi) (i : Int)
    (hi : solarSystemBand i) (c : CachedLocation)
    (h : (updateLocationInCache cache now esi i).result = .ok c) :
    hasAncestorChain c.location := by
  have hiv : 30000000 ≤ i ∧ i < 40000000 := hi
  unfold updateLocationInCache at h
  rw [if_neg (by omega), if_neg (by omega)] at h
  cases hf : (fetchLocationFromESI cache now esi i).result with
  | error e => simp [hf] at h
  | ok rawLocation =>
    simp only [hf, Except.ok.injEq] at h
    have hchain := fetchLocationFromESI_solarSystem_chain cache now esi hc he i hi
      rawLocation hf
    rw [← h]
    exact hchain

theorem getCachedLocation_solarSystem_chain (cache : Cache) (now : Int)
    (esi : ESI) (hc : cacheWellFormed cache) (he : esiWellFormed esi) (i : Int)
    (hi : solarSystemBand i) (c : CachedLocation)
    (h : (getCachedLocation cache now esi i).result = .ok c) :
    hasAncestorChain c.location := by
  unfold getCachedLocation at h
  split at h
  next c0 heq =>
    split at h
    · simp at h
    · simp only [Except.ok.injEq] at h
      have hcc := fetchLocationFromCache_cached cache now i c0 heq
      rw [← h]
      exact ((hc i c0 hcc).2.2.1 hi)
  next _ heq =>
    cases hu : (updateLocationInCache cache now esi i).result with
    | error e => simp [hu] at h
    | ok loc =>
      simp only [hu] at h
      split at h
      · simp at h
      · simp only [Except.ok.injEq] at h
        have hchain := updateLocationInCache_solarSystem_chain cache now esi hc he i hi
          loc hu
        rw [← h]
        exact hchain

theorem getLocation_solarSystem_chain (cache : Cache) (now : Int) (esi : ESI)
    (hc : cacheWellFormed cache) (he : esiWellFormed esi) (i : Int)
    (hi : solarSystemBand i) (l : Location)
    (h : getLocation cache now esi i = .ok l) : hasAncestorChain l := by
  unfold getLocation at h
  cases hg : (getCachedLocation cache now esi i).result with
  | error e => rw [hg] at h; simp at h
  | ok c =>
    rw [hg] at h
    simp only [Except.ok.injEq] at h
    have hchain := getCachedLocation_solarSystem_chain cache now esi hc he i hi c hg
    rw [← h]
    exact hchain

theorem fetchLocationFromCache_some (cache : Cache) (now id : Int)
    (c : CachedLocation) (h : cache id = some c) :
    fetchLocationFromCache cache now id =
      if 20000000 < c.id ∧ c.id < 1000000000000 ∧ c.expiresAt < now
      then (c, true) else (c, false) := by
  simp [fetchLocationFromCache, h]

theorem getCachedLocation_fresh (cache : Cache) (now : Int) (esi : ESI) (id : Int)
    (c : CachedLocation) (hfc : fetchLocationFromCache cache now id = (c, false))
    (hne : c ≠ ({} : CachedLocation)) :
    getCachedLocation cache now esi id = ⟨.ok c, 0, []⟩ := by
  unfold getCachedLocation
  split
  next c0 heq =>
    rw [hfc] at heq
    simp only [Prod.mk.injEq] at heq
    rw [← heq.1]
    rw [if_neg hne]
  next _ heq =>
    rw [hfc] at heq
    simp at heq

theorem witCache_wf : cacheWellFormed witCache := by
  intro i c h
  exact Option.noConfusion h

theorem witESI_wf : esiWellFormed witESI := by
  refine ⟨?_, ?_, ?_, ?_⟩
  · intro i cat h
    simp only [witESI] at h
    by_cases hp : solarSystemBand i
    · rw [if_pos hp] at h
      injection h with hcat
      subst hcat
      refine ⟨?_, ?_, ?_, ?_⟩
      · intro hx; exact absurd hx (by decide)
      · intro _; exact hp
      · intro hx; exact absurd hx (by decide)
      · intro hx; exact absurd hx (by decide)
    · rw [if_neg hp] at h
      exact Option.noConfusion h
  · intro i st h
    simp only [witESI] at h
    injection h with hst
    rw [← hst]
    decide
  · intro i s h
    simp only [witESI] at h
    injection h with hs
    rw [← hs]
    decide
  · intro i cc h
    simp only [witESI] at h
    injection h with hcc
    rw [← hcc]
    decide

theorem getLocations_foldl (cache : Cache) (now : Int) (esi : ESI)
    (l : List Int) (acc : BatchRes) :
    l.foldl (getLocationsStep cache now esi) acc =
      ⟨acc.response ++ l.filterMap (resolvedPair cache now esi),
        acc.failed || l.any (fun i => resolutionFailed cache now esi i)⟩ := by
  induction l generalizing acc with
  | nil => simp
  | cons x xs ih =>
    rw [List.foldl_cons, ih]
    unfold getLocationsStep resolvedPair resolutionFailed
    cases h : (getCachedLocation cache now esi x).result with
    | ok c => simp [h, List.append_assoc]
    | error e => simp [h]

theorem mem_getMarketTypes_foldl (typeIDs : List Int)
    (fetchType : Int → Nat → Option TypeInfo) (acc : List Int) (x : Int) :
    (x ∈ typeIDs.foldl (fun acc id =>
        match checkIfMarketTypeAsyncRetry (fetchType id) with
        | .market => acc ++ [id]
        | _ => acc) acc) ↔
      (x ∈ acc ∨ (x ∈ typeIDs ∧ checkIfMarketTypeAsyncRetry (fetchType x) = .market)) := by
  induction typeIDs generalizing acc with
  | nil => simp
  | cons y ys ih =>
    rw [List.foldl_cons, ih]
    cases h : checkIfMarketTypeAsyncRetry (fetchType y) with
    | market =>
      by_cases hxy : x = y
      · subst hxy; simp [h]
      · simp [h, hxy, List.mem_append, or_assoc]
    | nonMarket =>
      by_cases hxy : x = y
      · subst hxy; simp [h]
      · simp [h, hxy]
    | failed =>
      by_cases hxy : x = y
      · subst hxy; simp [h]
      · simp [h, hxy]

theorem deduplicateIDs_mem (ids : List Int) (x : Int) :
    x ∈ deduplicateIDs ids ↔ x ∈ ids := by
  induction ids with
  | nil => simp [deduplicateIDs]
  | cons y ys ih =>
    simp only [deduplicateIDs, List.foldr_cons] at ih ⊢
    split
    next hmem =>
      rw [ih, List.mem_cons]
      constructor
      · exact Or.inr
      · rintro (rfl | hx)
        · exact ih.1 hmem
        · exact hx
    next hnot =>
      simp [List.mem_cons, ih]

theorem deduplicateIDs_nodup (ids : List Int) : (deduplicateIDs ids).Nodup := by
  induction ids with
  | nil => simp [deduplicateIDs]
  | cons y ys ih =>
    simp only [deduplicateIDs, List.foldr_cons] at ih ⊢
    split
    next hmem => exact ih
    next hnot => exact List.nodup_cons.mpr ⟨hnot, ih⟩

/-- C1: the claim says that for an identifier in an individually refreshed band
whose cached entry has expired, a failing upstream fetch must make resolution
fall back to the stale cached value, erroring only when no cached value exists.
The code does the opposite: getCachedLocation overwrites the cached value with
the result of updateLocationInCache and propagates its error, as this concrete
evaluation shows — the stale Jita entry is present and expired, every upstream
call fails, and resolution returns the fetch error instead of the entry. -/
theorem claim_C1_code_bug_eval :
    staleCache 30000142 = some staleEntry ∧
    staleEntry ≠ ({} : CachedLocation) ∧
    staleEntry.expiresAt < 1000 ∧
    (20000000 < staleEntry.id ∧ staleEntry.id < 1000000000000) ∧
    (getCachedLocation staleCache 1000 failingESI 30000142).result =
      .error "could not get location type of ID 30000142 from ESI" ∧
    (getCachedLocation staleCache 1000 failingESI 30000142).result ≠
      .ok staleEntry := by decide

/-- C2: a cached entry whose own id is at most 20000000 (region band) or at
least 1000000000000 (structure band) is never considered stale: the
needsUpdate flag is true exactly under the condition 20000000 < id and
id < 1000000000000 and expiry passed, and for bulk-band entries
getCachedLocation returns the entry unchanged with zero upstream calls and
zero cache writes, whatever the clock and the upstream behaviour. -/
theorem claim_C2 (cache : Cache) (now : Int) (esi : ESI) (id : Int)
    (c : CachedLocation) (h : cache id = some c) :
    ((fetchLocationFromCache cache now id).2 = true ↔
      (20000000 < c.id ∧ c.id < 1000000000000 ∧ c.expiresAt < now)) ∧
    ((c.id ≤ 20000000 ∨ 1000000000000 ≤ c.id) → c ≠ ({} : CachedLocation) →
      getCachedLocation cache now esi id = ⟨.ok c, 0, []⟩) := by
  have hsome := fetchLocationFromCache_some cache now id c h
  constructor
  · rw [hsome]
    split
    next hcond => simp [hcond]
    next hcond => simp [hcond]
  · intro hband hne
    have hfc : fetchLocationFromCache cache now id = (c, false) := by
      rw [hsome, if_neg (by omega)]
    exact getCachedLocation_fresh cache now esi id c hfc hne

/-- C2 witness: the expired region entry for The Forge is served unchanged with
zero upstream calls even though every upstream endpoint is down. -/
theorem claim_C2_witness :
    ((fetchLocationFromCache regionCache 99999 10000002).2 = true ↔
      (20000000 < theForgeEntry.id ∧ theForgeEntry.id < 1000000000000 ∧
        theForgeEntry.expiresAt < 99999)) ∧
    getCachedLocation regionCache 99999 failingESI 10000002 =
      ⟨.ok theForgeEntry, 0, []⟩ := by
  have h := claim_C2 regionCache 99999 failingESI 10000002 theForgeEntry (by decide)
  exact ⟨h.1, h.2 (by decide) (by decide)⟩

/-- C3: under the band-shaped cache invariant and band-consistent upstream
data, every station resolved by fetchStation carries the full ancestor chain
(solar system, constellation and region facets present), and every entry
assembled by storeStructure for a bulk structure has a station facet together
with the full ancestor chain. -/
theorem claim_C3 (cache : Cache) (now : Int) (esi : ESI)
    (hc : cacheWellFormed cache) (he : esiWellFormed esi) :
    (∀ i l, stationBand i → (fetchStation cache now esi i).result = .ok l →
      hasAncestorChain l) ∧
    (∀ id struc expireAt entry, solarSystemBand struc.systemId →
      storeStructure cache now esi id struc expireAt = some entry →
      entry.location.station.isSome = true ∧ hasAncestorChain entry.location) := by
  constructor
  · intro i l hi h
    exact fetchStation_chain cache now esi hc he i hi l h
  · intro id struc expireAt entry hband h
    unfold storeStructure at h
    cases hg : getLocation cache now esi struc.systemId with
    | error e => rw [hg] at h; simp at h
    | ok system =>
      simp only [hg, Option.some.injEq] at h
      have hchain := getLocation_solarSystem_chain cache now esi hc he
        struc.systemId hband system hg
      rw [← h]
      exact ⟨rfl, hchain.1, hchain.2.1, hchain.2.2⟩

/-- C3 witness: on the empty cache with the healthy upstream, station 60000004
resolves with all ancestor facets present, and storeStructure for the Keepstar
record produces an entry with the station facet and the full chain. -/
theorem claim_C3_witness :
    (fetchStation witCache 0 witESI 60000004).result = .ok witStationLocation ∧
    hasAncestorChain witStationLocation ∧
    storeStructure witCache 0 witESI 1000000000005 witStructure 86400 =
      some witStoreEntry ∧
    (witStoreEntry.location.station.isSome = true ∧
      hasAncestorChain witStoreEntry.location) := by
  have h := claim_C3 witCache 0 witESI witCache_wf witESI_wf
  refine ⟨by decide, ?_, by decide, ?_⟩
  · exact h.1 60000004 witStationLocation (by decide) (by decide)
  · exact h.2 1000000000005 witStructure 86400 witStoreEntry (by decide) (by decide)

/-- C4: whenever updateLocationInCache succeeds, the entry it returns (and
writes, as the single cache write) keeps the queried id and expires one hour
from now for ids above 61000000 (conquerable stations) and twenty-four hours
from now for every other accepted id. -/
theorem claim_C4 (cache : Cache) (now : Int) (esi : ESI) (id : Int)
    (entry : CachedLocation)
    (h : (updateLocationInCache cache now esi id).result = .ok entry) :
    entry.id = id ∧
    entry.expiresAt = now + (if 61000000 < id then 3600 else 86400) ∧
    (updateLocationInCache cache now esi id).writes = [entry] := by
  unfold updateLocationInCache at h ⊢
  split at h
  next h1 => simp at h
  next h1 =>
    rw [if_neg h1]
    split at h
    next h2 => simp at h
    next h2 =>
      rw [if_neg h2]
      cases hf : (fetchLocationFromESI cache now esi id).result with
      | error e => simp only [hf] at h; simp at h
      | ok raw =>
        simp only [hf, Except.ok.injEq] at h
        simp only [hf]
        rw [← h]
        refine ⟨rfl, ?_, rfl⟩
        by_cases h3 : 61000000 < id <;> simp [h3]

/-- C4 witness: resolving the Jita solar system at time 0 yields an entry that
expires at 86400 (= 0 + one day) and is the unique cache write. -/
theorem claim_C4_witness :
    (updateLocationInCache witCache 0 witESI 30000142).result =
      .ok witSystemEntry ∧
    witSystemEntry.id = 30000142 ∧
    witSystemEntry.expiresAt =
      0 + (if (61000000 : Int) < 30000142 then 3600 else 86400) ∧
    (updateLocationInCache witCache 0 witESI 30000142).writes =
      [witSystemEntry] := by
  have h := claim_C4 witCache 0 witESI 30000142 witSystemEntry (by decide)
  exact ⟨by decide, h⟩

/-- C5 counterexample: the claim promises every caller a distinct partial
success status. On the batch [30000142, 50000000] one id resolves and one
fails, yet the gRPC handler GetLocations returns a nil error — exactly the
same nil it returns for the fully successful batch [30000142] — because it
discards the aggregate error of getLocations. -/
theorem claim_C5_counterexample :
    (getLocations witCache 0 witESI [30000142, 50000000]).response =
      [(30000142, jitaSystemLocation)] ∧
    (getLocations witCache 0 witESI [30000142, 50000000]).failed = true ∧
    GetLocations witCache 0 witESI [30000142, 50000000] =
      ([(30000142, jitaSystemLocation)], none) ∧
    GetLocations witCache 0 witESI [30000142] =
      ([(30000142, jitaSystemLocation)], none) := by decide

/-- C5 amended: getLocations always returns the pairs of every identifier that
resolved, and its aggregate error is non-nil exactly when at least one
identifier failed; the legacy HTTP endpoint maps that error to status 207
versus 200; but the gRPC GetLocations handler discards the aggregate error and
always returns the partial mapping with a nil error, so its callers cannot
distinguish partial from full success. -/
theorem claim_C5_amended (cache : Cache) (now : Int) (esi : ESI) (ids : List Int) :
    (getLocations cache now esi ids).response =
      (deduplicateIDs ids).filterMap (resolvedPair cache now esi) ∧
    ((getLocationsResult cache now esi ids).2 ≠ none ↔
      (deduplicateIDs ids).any (fun i => resolutionFailed cache now esi i) = true) ∧
    GetLocations cache now esi ids =
      ((getLocations cache now esi ids).response, none) ∧
    endpointResponseCode (getLocationsResult cache now esi ids).2 =
      (if (getLocations cache now esi ids).failed then 207 else 200) := by
  have hgl : getLocations cache now esi ids =
      ⟨(deduplicateIDs ids).filterMap (resolvedPair cache now esi),
        (deduplicateIDs ids).any (fun i => resolutionFailed cache now esi i)⟩ := by
    unfold getLocations
    rw [getLocations_foldl]
    simp
  refine ⟨?_, ?_, rfl, ?_⟩
  · rw [hgl]
  · unfold getLocationsResult
    rw [hgl]
    cases hany : (deduplicateIDs ids).any (fun i => resolutionFailed cache now esi i) <;>
      simp [hany]
  · unfold endpointResponseCode getLocationsResult
    rw [hgl]
    cases hany : (deduplicateIDs ids).any (fun i => resolutionFailed cache now esi i) <;>
      simp [hany]

/-- C6: an identifier below 10000000, inside the reserved gap [40000000,
60000000), or above 64000000 while not above 1000000000000, is rejected by
updateLocationInCache with the invalid range error, zero upstream calls and
zero cache writes; with no cache entry, the full resolution fails the same
way. -/
theorem claim_C6 (cache : Cache) (now : Int) (esi : ESI) (id : Int)
    (h1 : id ≤ 1000000000000)
    (h2 : id < 10000000 ∨ (40000000 ≤ id ∧ id < 60000000) ∨ 64000000 < id) :
    updateLocationInCache cache now esi id =
      ⟨.error "not a valid location ID range", 0, []⟩ ∧
    (cache id = none → getCachedLocation cache now esi id =
      ⟨.error "not a valid location ID range", 0, []⟩) := by
  have hupd : updateLocationInCache cache now esi id =
      ⟨.error "not a valid location ID range", 0, []⟩ := by
    unfold updateLocationInCache
    rw [if_neg (by omega), if_pos (by omega)]
  refine ⟨hupd, ?_⟩
  intro hnone
  have hfc : fetchLocationFromCache cache now id = (({} : CachedLocation), true) := by
    simp [fetchLocationFromCache, hnone]
  unfold getCachedLocation
  split
  next c0 heq => rw [hfc] at heq; simp at heq
  next _ heq => simp only [hupd]

/-- C6 witness: id 50000000 lies in the reserved gap; it is rejected without
any upstream call or cache write, both at updateLocationInCache and through
getCachedLocation on an empty cache. -/
theorem claim_C6_witness :
    updateLocationInCache witCache 0 witESI 50000000 =
      ⟨.error "not a valid location ID range", 0, []⟩ ∧
    getCachedLocation witCache 0 witESI 50000000 =
      ⟨.error "not a valid location ID range", 0, []⟩ := by
  have h := claim_C6 witCache 0 witESI 50000000 (by decide) (by decide)
  exact ⟨h.1, h.2 rfl⟩

/-- C7: a structure identifier (above 1000000000000) with no cache entry fails
with the distinct unknown citadel error, performing zero upstream calls and
zero cache writes. -/
theorem claim_C7 (cache : Cache) (now : Int) (esi : ESI) (id : Int)
    (h1 : 1000000000000 < id) (h2 : cache id = none) :
    getCachedLocation cache now esi id =
      ⟨.error ("Could not find citadel " ++ toString id ++ " in current dataset"),
        0, []⟩ := by
  have hupd : updateLocationInCache cache now esi id =
      ⟨.error ("Could not find citadel " ++ toString id ++ " in current dataset"),
        0, []⟩ := by
    unfold updateLocationInCache
    rw [if_pos h1]
  have hfc : fetchLocationFromCache cache now id = (({} : CachedLocation), true) := by
    simp [fetchLocationFromCache, h2]
  unfold getCachedLocation
  split
  next c0 heq => rw [hfc] at heq; simp at heq
  next _ heq => simp only [hupd]

/-- C7 witness: the unknown structure 1000000000001 on the empty cache. -/
theorem claim_C7_witness :
    getCachedLocation witCache 0 witESI 1000000000001 =
      ⟨.error ("Could not find citadel " ++ toString (1000000000001 : Int) ++
        " in current dataset"), 0, []⟩ :=
  claim_C7 witCache 0 witESI 1000000000001 (by decide) rfl

/-- C8: an attempt sequence that fails twice and succeeds on the third try
yields the classification of the third attempt (market or non-market); one
that fails three times yields the failure outcome; and a type id is in the
set produced by getMarketTypes exactly when it was classified as a market
type, so permanent failures are excluded from the cycle. -/
theorem claim_C8 :
    (∀ (fetchType : Nat → Option TypeInfo) (t : TypeInfo),
      fetchType 0 = none → fetchType 1 = none → fetchType 2 = some t →
      checkIfMarketTypeAsyncRetry fetchType =
        (if t.published && t.marketGroupId != 0 then .market else .nonMarket)) ∧
    (∀ fetchType : Nat → Option TypeInfo,
      fetchType 0 = none → fetchType 1 = none → fetchType 2 = none →
      checkIfMarketTypeAsyncRetry fetchType = .failed) ∧
    (∀ (typeIDs : List Int) (fetchType : Int → Nat → Option TypeInfo) (x : Int),
      x ∈ getMarketTypes typeIDs fetchType ↔
        (x ∈ typeIDs ∧ checkIfMarketTypeAsyncRetry (fetchType x) = .market)) := by
  refine ⟨?_, ?_, ?_⟩
  · intro ft t h0 h1 h2
    simp only [checkIfMarketTypeAsyncRetry, checkLoop, checkIfMarketType, h0, h1, h2]
    cases hb : (t.published && t.marketGroupId != 0) <;> simp [hb]
  · intro ft h0 h1 h2
    simp only [checkIfMarketTypeAsyncRetry, checkLoop, checkIfMarketType, h0, h1, h2]
  · intro typeIDs ft x
    unfold getMarketTypes
    rw [mem_getMarketTypes_foldl]
    simp

/-- C8 witness: the trace failing twice then succeeding is counted a market
type; the always-failing trace is a permanent failure; and over the catalog
[7, 8] only type 7 ends up in the market set. -/
theorem claim_C8_witness :
    checkIfMarketTypeAsyncRetry ftTwoFailures = .market ∧
    checkIfMarketTypeAsyncRetry ftAllFailures = .failed ∧
    (7 ∈ getMarketTypes [7, 8] witFetchType ↔
      (7 ∈ ([7, 8] : List Int) ∧
        checkIfMarketTypeAsyncRetry (witFetchType 7) = .market)) := by
  refine ⟨?_, ?_, ?_⟩
  · exact claim_C8.1 ftTwoFailures { published := true, marketGroupId := 5 } rfl rfl rfl
  · exact claim_C8.2.1 ftAllFailures rfl rfl rfl
  · exact claim_C8.2.2 [7, 8] witFetchType 7

/-- C9: deduplicateIDs keeps every distinct input identifier exactly once and
nothing else: the result has no duplicates, its members are exactly the input
members, each input id is counted once and any other id zero times; and the
batch resolver dispatches its per-id resolution over exactly this list. -/
theorem claim_C9 (ids : List Int) :
    (deduplicateIDs ids).Nodup ∧
    (∀ x : Int, x ∈ deduplicateIDs ids ↔ x ∈ ids) ∧
    (∀ x : Int, (deduplicateIDs ids).count x = if x ∈ ids then 1 else 0) ∧
    (∀ (cache : Cache) (now : Int) (esi : ESI),
      getLocations cache now esi ids =
        (deduplicateIDs ids).foldl (getLocationsStep cache now esi) ⟨[], false⟩) := by
  refine ⟨deduplicateIDs_nodup ids, fun x => deduplicateIDs_mem ids x, ?_,
    fun _ _ _ => rfl⟩
  intro x
  by_cases hx : x ∈ ids
  · rw [if_pos hx]
    exact List.count_eq_one_of_mem (deduplicateIDs_nodup ids)
      ((deduplicateIDs_mem ids x).2 hx)
  · rw [if_neg hx]
    exact List.count_eq_zero_of_not_mem
      (fun hmem => hx ((deduplicateIDs_mem ids x).1 hmem))

/-- C10: a station resolved fresh from the per-identifier upstream API gets a
station facet whose Public flag is true unconditionally (the upstream record
carries no visibility that the code would consult), while an entry built by
storeStructure carries exactly the public flag supplied by the bulk feed. -/
theorem claim_C10 :
    (∀ (cache : Cache) (now : Int) (esi : ESI) (id : Int) (st : ESIStation)
      (l : Location), cache id = none → esi.station id = some st →
      (fetchStation cache now esi id).result = .ok l →
      l.station = some { id := st.stationId, name := st.name,
                         typeId := st.typeId, typeName := "", lastSeen := none,
                         public := true, firstSeen := none,
                         coordinates := some st.position }) ∧
    (∀ (cache : Cache) (now : Int) (esi : ESI) (id : Int) (struc : Structure)
      (expireAt : Int) (entry : CachedLocation),
      storeStructure cache now esi id struc expireAt = some entry →
      entry.location.station = some { id := id, name := struc.name,
                                      typeId := struc.typeId,
                                      typeName := struc.typeName,
                                      lastSeen := some struc.lastSeen,
                                      public := struc.public,
                                      firstSeen := some struc.firstSeen,
                                      coordinates := some struc.coordinates }) := by
  constructor
  · intro cache now esi id st l hnone hst h
    have hfc : fetchLocationFromCache cache now id = (({} : CachedLocation), true) := by
      simp [fetchLocationFromCache, hnone]
    unfold fetchStation at h
    split at h
    next c0 heq => rw [hfc] at heq; simp at heq
    next _ heq =>
      simp only [hst] at h
      cases hfs : (fetchSolarSystem cache now esi st.systemId).result with
      | error e => simp only [hfs] at h; simp at h
      | ok ssl =>
        simp only [hfs, Except.ok.injEq] at h
        rw [← h]
  · intro cache now esi id struc expireAt entry h
    unfold storeStructure at h
    cases hg : getLocation cache now esi struc.systemId with
    | error e => rw [hg] at h; simp at h
    | ok system =>
      simp only [hg, Option.some.injEq] at h
      rw [← h]

/-- C10 witness: station 60000004 fetched fresh carries public = true although
nothing upstream said so, and the Keepstar entry carries the feed-supplied
public = false. -/
theorem claim_C10_witness :
    witStationLocation.station = some witStationFacet ∧
    witStoreEntry.location.station = some witStoreStationFacet := by
  constructor
  · exact claim_C10.1 witCache 0 witESI 60000004 stInfo witStationLocation
      rfl rfl (by decide)
  · exact claim_C10.2 witCache 0 witESI 1000000000005 witStructure 86400
      witStoreEntry (by decide)

end StaticData
